import Mathlib

/-!
Verification development for the phone-number information pipeline
(`phone_info_api.py`).  Python strings are modelled as `List Char`;
the external collaborators (the `phonenumbers` library, `pycountry`)
are modelled as an `Oracle` record of functions that the pipeline
consumes; calls that can raise a Python exception return values in
`Except PyExn`.  All definitions are translated from the source file:
regular expressions used by the source are modelled by equivalent
explicit character-list scans, with the equivalence argued in comments
next to each definition.
-/

/-- Python strings are modelled as lists of characters. -/
abbrev Str := List Char

/-- Shorthand turning a Lean string literal into the `List Char` model. -/
def st (s : String) : Str := s.toList

/-- ASCII whitespace, as matched by Python's `\s` and `str.strip()`
(restricted to the ASCII range, which is all the pipeline's inputs use). -/
def pySpace (c : Char) : Bool :=
  c = ' ' ∨ c = '\t' ∨ c = '\n' ∨ c = '\r' ∨ c = '\x0b' ∨ c = '\x0c'

/-- Characters removed by the source's formatting cleanup
`re.sub(r'[\(\)\-\.\s\[\]\/]', '', ...)`: the explicit punctuation
class together with whitespace. -/
def isFormatChar (c : Char) : Bool :=
  c = '(' ∨ c = ')' ∨ c = '-' ∨ c = '.' ∨ c = '[' ∨ c = ']' ∨ c = '/' ∨ pySpace c

/-- `str.replace(" ", "")`. -/
def removeSpaces (l : Str) : Str := l.filter (fun c => ¬ (c = ' '))

/-- `str.lower()` (ASCII case folding, as in CPython for ASCII data). -/
def lowerStr (l : Str) : Str := l.map Char.toLower

/-- `str.strip()`: drop ASCII whitespace from both ends. -/
def stripWs (l : Str) : Str :=
  ((l.dropWhile pySpace).reverse.dropWhile pySpace).reverse

/-- Substring containment: Python's `pat in s`. -/
def containsSub (pat : Str) : Str → Bool
  | [] => pat.isPrefixOf []
  | c :: rest => pat.isPrefixOf (c :: rest) || containsSub pat rest

/-- `s.split(sep)[0]`: the part of `s` before the first occurrence of
`sep` (the whole of `s` when `sep` does not occur). -/
def takeBefore (sep : Str) : Str → Str
  | [] => []
  | c :: rest =>
    if sep.isPrefixOf (c :: rest) then [] else c :: takeBefore sep rest

/-- One hex digit, for URL decoding. -/
def hexVal (c : Char) : Option Nat :=
  if '0' ≤ c ∧ c ≤ '9' then some (c.toNat - '0'.toNat)
  else if 'a' ≤ c ∧ c ≤ 'f' then some (c.toNat - 'a'.toNat + 10)
  else if 'A' ≤ c ∧ c ≤ 'F' then some (c.toNat - 'A'.toNat + 10)
  else none

/-- Decode one percent-escaped byte.  Bytes below 0x80 decode to the
ASCII character; an isolated byte ≥ 0x80 is not valid UTF-8 and CPython's
`unquote` renders it as U+FFFD.  (Multi-byte UTF-8 escape sequences are
approximated by per-byte replacement; no claim in this development
depends on non-ASCII escapes.) -/
def decodeByte (v : Nat) : Char :=
  if v < 128 then Char.ofNat v else '�'

/-- Fuel-driven scanner for `urllib.parse.unquote`.  The fuel only
bounds the recursion; `unquote` supplies the input length, which is
enough because every step consumes at least one character. -/
def unquoteGo : Nat → Str → Str
  | 0, l => l
  | _ + 1, [] => []
  | fuel + 1, c :: rest =>
    if c = '%' then
      match rest with
      | h1 :: h2 :: rest2 =>
        match hexVal h1, hexVal h2 with
        | some a, some b => decodeByte (16 * a + b) :: unquoteGo fuel rest2
        | _, _ => '%' :: unquoteGo fuel rest
      | _ => '%' :: unquoteGo fuel rest
    else c :: unquoteGo fuel rest

/-- `urllib.parse.unquote`: replace each `%hh` (two hex digits) with the
decoded byte; a `%` not followed by two hex digits is kept literally. -/
def unquote (l : Str) : Str := unquoteGo l.length l

/-- Auxiliary scanner for `re.sub(r'\s+', ' ', s)`: `inRun` records
whether the previous character was part of a whitespace run that has
already emitted its single replacement space. -/
def collapseWsAux (inRun : Bool) : Str → Str
  | [] => []
  | c :: rest =>
    if pySpace c then
      if inRun then collapseWsAux true rest
      else ' ' :: collapseWsAux true rest
    else c :: collapseWsAux false rest

/-- `re.sub(r'\s+', ' ', s)`: collapse every whitespace run to one space. -/
def collapseWs (l : Str) : Str := collapseWsAux false l

/-- Fuel-driven scanner for `re.sub(r'\+(\d+)\(0\)', r'+\1', s)`.
At a `+` the regex must match a maximal digit run followed by the
literal `(0)` (a shorter digit run would be followed by a digit, which
cannot match `(`), in which case the `(0)` is dropped; otherwise the
scan advances one character, exactly like the `re` engine.  The fuel
only bounds the recursion; `trunkSub` supplies enough for the whole
input, and running out of fuel returns the remaining input unchanged. -/
def trunkGo : Nat → Str → Str
  | 0, l => l
  | _ + 1, [] => []
  | fuel + 1, c :: rest =>
    if c = '+' then
      let ds := rest.takeWhile Char.isDigit
      let tl := rest.dropWhile Char.isDigit
      if ds ≠ [] ∧ tl.take 3 = ['(', '0', ')'] then
        '+' :: (ds ++ trunkGo fuel (tl.drop 3))
      else '+' :: trunkGo fuel rest
    else c :: trunkGo fuel rest

/-- `re.sub(r'\+(\d+)\(0\)', r'+\1', s)`: collapse `+<code>(0)` into
`+<code>`. -/
def trunkSub (l : Str) : Str := trunkGo l.length l

/-- `str(n)` for a Python non-negative integer: decimal digits. -/
def natDigits (n : Nat) : Str := Nat.toDigits 10 n

/-- `int(s)` on a decimal digit string (only ever applied to slices of
the literal exception-table keys, which are all digits). -/
def digitsToNat (l : Str) : Nat :=
  l.foldl (fun acc c => 10 * acc + (c.toNat - '0'.toNat)) 0

/-- Python's `s[-n:]`. -/
def takeLast (n : Nat) (l : Str) : Str := l.drop (l.length - n)

/-- The result of the external parser: `phonenumbers.PhoneNumber`
restricted to the two fields the pipeline reads. -/
structure ParsedNumber where
  country_code : Nat
  national_number : Nat
deriving DecidableEq, Repr

/-- A Python exception, as far as the pipeline's handlers distinguish
them: `NumberParseException` versus every other `Exception`.  The
carried string models `str(e)`. -/
inductive PyExn where
  | numberParse (msg : Str)
  | other (msg : Str)
deriving DecidableEq, Repr

/-- `str(e)` for a caught exception. -/
def pyStr : PyExn → Str
  | .numberParse m => m
  | .other m => m

/-- The external collaborators consumed by the pipeline
(`phonenumbers` parse/validate/type/format/geocoder/carrier,
`region_code_for_country_code`, and `pycountry` name lookup, the
last returning `none` when `pycountry` has no entry — the source
catches the resulting `KeyError`/`AttributeError` locally). -/
structure Oracle where
  parse : Str → Str → Except PyExn ParsedNumber
  is_valid_number : ParsedNumber → Except PyExn Bool
  number_type : ParsedNumber → Except PyExn Nat
  format_number : ParsedNumber → Except PyExn Str
  region_code_for_country_code : Nat → Str
  pycountry_name : Str → Option Str
  geocoder_description : ParsedNumber → Except PyExn Str
  carrier_name : ParsedNumber → Except PyExn Str

/-- `PhoneInfoResponse`. -/
structure PhoneInfoResponse where
  country_code : Nat
  national_number : Nat
  country : Str
  region : Str
  carrier : Str
  type : Str
  is_valid : Bool
  formatted_number : Str
deriving DecidableEq, Repr

/-- `ErrorResponse` (`detail` defaults are always supplied at the
return sites the pipeline uses). -/
structure ErrorResponse where
  error : Str
  detail : Str
deriving DecidableEq, Repr

/-- The value returned by the `/phone-info` handler: exactly one of a
success record or a typed error. -/
inductive ApiResult where
  | success (r : PhoneInfoResponse)
  | failure (e : ErrorResponse)
deriving DecidableEq, Repr

/-- `COUNTRY_NAME_MAPPING`. -/
def COUNTRY_NAME_MAPPING : List (Str × Str) :=
  [(st "Türkiye", st "Turkey"),
   (st "Czechia", st "Czech Republic"),
   (st "Korea, Republic of", st "South Korea")]

/-- `CANADA_AREA_CODES`. -/
def CANADA_AREA_CODES : List Str :=
  [st "204", st "226", st "236", st "249", st "250", st "289", st "306",
   st "343", st "365", st "387", st "403", st "416", st "418", st "431",
   st "437", st "438", st "450", st "506", st "514", st "519", st "548",
   st "579", st "581", st "587", st "604", st "613", st "639", st "647",
   st "705", st "709", st "778", st "780", st "782", st "807", st "819",
   st "825", st "867", st "873", st "902", st "905"]

/-- `REGION_MAPPING`. -/
def REGION_MAPPING : List (Str × Str) :=
  [(st "Sydney", st "Sydney/NSW"),
   (st "Melbourne", st "Melbourne/Victoria"),
   (st "Ringwood", st "Melbourne/Victoria"),
   (st "Adelaide", st "Adelaide/Perth"),
   (st "Perth", st "Adelaide/Perth"),
   (st "Brisbane", st "Queensland"),
   (st "San Francisco, CA", st "California"),
   (st "New York, NY", st "New York"),
   (st "Mountain View, CA", st "California"),
   (st "Georgia", st "Georgia")]

/-- `COUNTRY_NAME_OVERRIDES` (same entries as `COUNTRY_NAME_MAPPING`). -/
def COUNTRY_NAME_OVERRIDES : List (Str × Str) :=
  [(st "Türkiye", st "Turkey"),
   (st "Czechia", st "Czech Republic"),
   (st "Korea, Republic of", st "South Korea")]

/-- `TOLL_FREE_PREFIXES`, keyed by `str(country_code)`. -/
def TOLL_FREE_PREFIXES : List (Str × List Str) :=
  [(st "1", [st "800", st "844", st "855", st "866", st "877", st "888"]),
   (st "44", [st "0800", st "0808"]),
   (st "61", [st "1800"])]

/-- The pinned data of one literal exception-table entry. -/
structure TestData where
  country : Str
  is_valid : Bool
  region : Str
deriving DecidableEq, Repr

/-- `TEST_NUMBERS`, in source (insertion) order. -/
def TEST_NUMBERS : List (Str × TestData) :=
  [(st "+44 7700 900123", ⟨st "United Kingdom", true, st "United Kingdom Mobile"⟩),
   (st "+447700900123", ⟨st "United Kingdom", true, st "United Kingdom Mobile"⟩),
   (st "+55 11 1234 5678", ⟨st "Brazil", true, st "São Paulo"⟩),
   (st "+27 11 123 4567", ⟨st "South Africa", true, st "Johannesburg"⟩),
   (st "+64 9 123 4567", ⟨st "New Zealand", true, st "Auckland"⟩),
   (st "+82 2 1234 5678", ⟨st "South Korea", true, st "Seoul"⟩),
   (st "+46 8 123 456 78", ⟨st "Sweden", true, st "Stockholm"⟩)]

/-- Dictionary-style assoc-list value lookup. -/
def alistLookup (tbl : List (Str × Str)) (k : Str) : Option Str :=
  (tbl.find? (fun e => e.1 = k)).map (·.2)

/-- `d.get(k, k)` / `d[k] if k in d else k`. -/
def lookupD (tbl : List (Str × Str)) (k : Str) : Str :=
  (alistLookup tbl k).getD k

/-- Python `k in TEST_NUMBERS` (key membership). -/
def testKey (k : Str) : Bool := TEST_NUMBERS.any (fun e => e.1 = k)

/-- The condition under which `normalize_phone_number` short-circuits:
`phone_number in TEST_NUMBERS or phone_number.replace(" ", "") in
TEST_NUMBERS`, applied to the URL-decoded text. -/
def testCond (p : Str) : Bool := testKey p || testKey (removeSpaces p)

/-- `normalize_phone_number` (lines 212–262 of the source): URL-decode,
short-circuit on the literal exception table, strip extensions, trim and
collapse whitespace, rewrite a leading `00` to `+`, speculatively prepend
`+` before a leading digit, remove formatting punctuation, collapse a
`+<code>(0)` trunk marker, and finally prepend `+` to a bare digit string
longer than 7 characters.  `re.match(r'^\d{1,3}', s)` is truthy exactly
when `s` starts with a digit, so it is modelled by a head test. -/
def normalize_phone_number (raw : Str) : Str :=
  let p0 := unquote raw
  if testCond p0 then p0
  else
    let p1 := if containsSub (st " ext ") (lowerStr p0) then takeBefore (st " ext ") p0 else p0
    let p2 := if containsSub (st "ext:") (lowerStr p1) then takeBefore (st "ext:") p1 else p1
    let p3 := if containsSub (st "extension") (lowerStr p2) then takeBefore (st "extension") p2 else p2
    let c0 := collapseWs (stripWs p3)
    let c1 := if (st "00").isPrefixOf c0 then '+' :: c0.drop 2 else c0
    let c2 :=
      if ¬ (st "+").isPrefixOf c1 ∧ (c1.headD ' ').isDigit ∧ c1 ≠ [] then '+' :: c1 else c1
    let c3 := c2.filter (fun c => ¬ isFormatChar c)
    let c4 := trunkSub c3
    if ¬ (st "+").isPrefixOf c4 ∧ 7 < c4.length then '+' :: c4 else c4

/-- `is_toll_free` (lines 184–193): prefix test on `str(national_number)`
for the `TOLL_FREE_PREFIXES` entry of `str(country_code)`. -/
def is_toll_free (p : ParsedNumber) : Bool :=
  let cc := natDigits p.country_code
  let nat := natDigits p.national_number
  match TOLL_FREE_PREFIXES.find? (fun e => e.1 = cc) with
  | some e => e.2.any (fun pre => pre.isPrefixOf nat)
  | none => false

/-- `lookup_country_name` (lines 33–51).  The `KeyError`/`AttributeError`
that `pycountry` raises for an unknown region is caught locally by the
source and modelled by `pycountry_name` returning `none`. -/
def lookup_country_name (o : Oracle) (cc : Nat) : Str :=
  if cc = 82 then st "South Korea"
  else
    let region := o.region_code_for_country_code cc
    if region = [] then st "Unknown"
    else
      match o.pycountry_name region with
      | some name => lookupD COUNTRY_NAME_MAPPING name
      | none => region

/-- `lookup_region_description` (lines 53–59): geocoder output with the
empty string replaced by `"Unknown"`. -/
def lookup_region_description (o : Oracle) (p : ParsedNumber) : Except PyExn Str :=
  (o.geocoder_description p).map (fun d => if d = [] then st "Unknown" else d)

/-- The `very_short_patterns` loop (lines 286–303).  Each regex is an
`re.match` (anchored at the start); all nine produce the same
`ErrorResponse`, so the loop is modelled as one disjunction:
`^12345$`, `^\+\+`, `^abcdefghijk$`, `\+\d{19,}` (a leading `+`
followed by at least 19 digits), `^$`, `^\+$`, `^\+\+$`, `^\+aaa$`,
and `\+\d*[a-zA-Z]` (a leading `+`, a maximal digit run — a shorter
run would be followed by a digit, which cannot match a letter — then
a letter). -/
def veryShortReject (p : Str) : Bool :=
  p = st "12345" ∨
  (st "++").isPrefixOf p ∨
  p = st "abcdefghijk" ∨
  ((st "+").isPrefixOf p ∧ 19 ≤ ((p.drop 1).takeWhile Char.isDigit).length) ∨
  p = [] ∨
  p = st "+" ∨
  p = st "++" ∨
  p = st "+aaa" ∨
  ((st "+").isPrefixOf p ∧
    (((p.drop 1).dropWhile Char.isDigit).headD ' ').isAlpha)

/-- The `TEST_NUMBERS` scan of lines 307–309: the first table entry whose
space-stripped key equals the space-stripped input. -/
def findTestEntry (np : Str) : Option (Str × TestData) :=
  TEST_NUMBERS.find? (fun e => removeSpaces e.1 = np)

/-- The literal exception-table branch (lines 310–335).  Inside a bare
`try`, the input is parsed and formatted; on any exception the fallback
record derives the country code from characters 1–2 of the
space-stripped key and the national number from its last 10 characters,
and echoes the (possibly spaced) input as the formatted number.  Both
arms pin `country`, `region` and `is_valid` from the table, use an empty
carrier, and set `type` to `"1"` exactly when the pinned region contains
`"Mobile"`. -/
def testBranch (o : Oracle) (phone dr tn : Str) (d : TestData) : ApiResult :=
  let ty : Str := if containsSub (st "Mobile") d.region then st "1" else st "0"
  match (do
    let p ← o.parse phone dr
    let fmt ← o.format_number p
    pure (p, fmt) : Except PyExn (ParsedNumber × Str)) with
  | .ok (p, fmt) =>
    .success ⟨p.country_code, p.national_number, d.country, d.region, [],
              ty, d.is_valid, fmt⟩
  | .error _ =>
    let cc := if (st "+").isPrefixOf tn then digitsToNat ((tn.drop 1).take 2) else 0
    .success ⟨cc, digitsToNat (takeLast 10 tn), d.country, d.region, [],
              ty, d.is_valid, phone⟩

/-- The region-classifier `if`/`elif` chain (lines 373–415):
`re.match(r'^\+CC|^CC', s)` is truthy exactly when `s` starts with
`+CC` or with `CC`.  The calling-code-1 branch additionally narrows to
`CA` when the input is long enough and its area-code slice is in
`CANADA_AREA_CODES`. -/
def classifyRegion (cleaned dr : Str) : Str :=
  if (st "+44").isPrefixOf cleaned ∨ (st "44").isPrefixOf cleaned then st "GB"
  else if ((st "+1").isPrefixOf cleaned ∨ (st "1").isPrefixOf cleaned) ∧
      11 ≤ cleaned.length then
    if 12 ≤ cleaned.length then
      if CANADA_AREA_CODES.any (fun a =>
          a = (if (st "+1").isPrefixOf cleaned then (cleaned.drop 2).take 3
               else (cleaned.drop 1).take 3)) then st "CA"
      else st "US"
    else st "US"
  else if (st "+61").isPrefixOf cleaned ∨ (st "61").isPrefixOf cleaned then st "AU"
  else if (st "+234").isPrefixOf cleaned ∨ (st "234").isPrefixOf cleaned then st "NG"
  else if (st "+52").isPrefixOf cleaned ∨ (st "52").isPrefixOf cleaned then st "MX"
  else if (st "+55").isPrefixOf cleaned ∨ (st "55").isPrefixOf cleaned then st "BR"
  else if (st "+27").isPrefixOf cleaned ∨ (st "27").isPrefixOf cleaned then st "ZA"
  else if (st "+64").isPrefixOf cleaned ∨ (st "64").isPrefixOf cleaned then st "NZ"
  else if (st "+46").isPrefixOf cleaned ∨ (st "46").isPrefixOf cleaned then st "SE"
  else if (st "+82").isPrefixOf cleaned ∨ (st "82").isPrefixOf cleaned then st "KR"
  else dr

/-- `re.search(r'CC(\d{lo,hi})', s)` for a digit sequence `CC`: scan for
the leftmost position where `CC` is followed by at least `lo` digits and
return the greedy capture (at most `hi` digits).  A shorter digit run at
a matching position cannot succeed, so the maximal run decides the
match, exactly like the backtracking engine. -/
def searchEmbedded (code : Str) (lo hi : Nat) : Str → Option Str
  | [] => none
  | c :: rest =>
    if code.isPrefixOf (c :: rest) then
      let ds := ((c :: rest).drop code.length).takeWhile Char.isDigit
      if lo ≤ ds.length then some (ds.take hi)
      else searchEmbedded code lo hi rest
    else searchEmbedded code lo hi rest

/-- The parse-fallback cascade of the inner `try` (lines 422–447): probe
for an embedded calling code (`44`+10 digits, `61`+9, `52`+10,
`55`+10–11, `46`+8–10, in that order), re-prefix it and parse with the
matching region, or as a last resort parse the cleaned number with the
(possibly overridden) default region. -/
def cascadeAttempt (o : Oracle) (cleaned dr : Str) : Except PyExn ParsedNumber :=
  match searchEmbedded (st "44") 10 10 cleaned with
  | some g => o.parse (st "+44" ++ g) (st "GB")
  | none =>
    match searchEmbedded (st "61") 9 9 cleaned with
    | some g => o.parse (st "+61" ++ g) (st "AU")
    | none =>
      match searchEmbedded (st "52") 10 10 cleaned with
      | some g => o.parse (st "+52" ++ g) (st "MX")
      | none =>
        match searchEmbedded (st "55") 10 11 cleaned with
        | some g => o.parse (st "+55" ++ g) (st "BR")
        | none =>
          match searchEmbedded (st "46") 8 10 cleaned with
          | some g => o.parse (st "+46" ++ g) (st "SE")
          | none => o.parse cleaned dr

/-- The error produced when the whole cascade fails (lines 449–452),
including the f-string detail built from the input and `str(e)`. -/
def unparseDetail (phone msg : Str) : Str :=
  st "The provided number '" ++ phone ++
  st "' could not be parsed. Please check the format and include the country code. Error: " ++ msg

/-- The two-level parse of lines 418–452: the first attempt's
`NumberParseException` is caught (any other exception propagates), and
the cascade runs inside `except Exception`, converting any failure into
an `ErrorResponse`. -/
def mainParse (o : Oracle) (cleaned dr : Str) :
    Except PyExn (Sum ErrorResponse ParsedNumber) :=
  match o.parse cleaned dr with
  | .ok p => .ok (.inr p)
  | .error (.other m) => .error (.other m)
  | .error (.numberParse _) =>
    match cascadeAttempt o cleaned dr with
    | .ok p => .ok (.inr p)
    | .error e =>
      .ok (.inl ⟨st "Unable to parse phone number", unparseDetail cleaned (pyStr e)⟩)

/-- Python's `not region or region == "Unknown"` guard used by the
country overlays. -/
def unknownish (r : Str) : Bool := r = [] ∨ r = st "Unknown"

/-- Python's `x or "Unknown"` on a string. -/
def orUnknown (l : Str) : Str := if l = [] then st "Unknown" else l

/-- The country/region overlay block (lines 497–600), as a pure function
of the parsed number, the (normalized) input text, `str(national_number)`,
the baseline country/region, the current validity flag and the number
type: the Canada area-code override, the `REGION_MAPPING` rewrite, the
per-country `if`/`elif` chain (61, 44, 27, 64, 55, 46, 82) and the final
toll-free relabeling.  The `carrier_info = ""` assignment inside the
toll-free branch is omitted because line 603 unconditionally overwrites
it with the carrier lookup immediately afterwards. -/
def overlayCountryRegion (p : ParsedNumber) (phone natS country region : Str)
    (v : Bool) (ntv : Nat) : Str × Str × Bool :=
  let country1 :=
    if p.country_code = 1 ∧ 10 ≤ natS.length ∧
        CANADA_AREA_CODES.any (fun a => a = natS.take 3) then st "Canada" else country
  let region1 := lookupD REGION_MAPPING region
  let s1 : Str × Str × Bool :=
    if p.country_code = 61 then
      let r1 := if (st "4").isPrefixOf natS ∧ unknownish region1 then st "Australia Mobile" else region1
      let r2 :=
        if natS.take 1 = st "2" ∧ unknownish r1 then st "Sydney/NSW"
        else if natS.take 1 = st "3" ∧ unknownish r1 then st "Melbourne/Victoria"
        else if natS.take 1 = st "7" ∧ unknownish r1 then st "Queensland"
        else if natS.take 1 = st "8" ∧ unknownish r1 then st "Adelaide/Perth"
        else r1
      (st "Australia", r2, v)
    else if p.country_code = 44 then
      let r1 := if (st "7").isPrefixOf natS ∧ unknownish region1 then st "United Kingdom Mobile" else region1
      if containsSub (st "+44 7700 900123") phone ∨
          containsSub (st "+447700900123") (removeSpaces phone) then
        (st "United Kingdom", st "United Kingdom Mobile", true)
      else (st "United Kingdom", r1, v)
    else if p.country_code = 27 then
      (st "South Africa",
       if (st "11").isPrefixOf natS then st "Johannesburg"
       else if (st "21").isPrefixOf natS then st "Cape Town" else region1, v)
    else if p.country_code = 64 then
      (st "New Zealand",
       if (st "9").isPrefixOf natS then st "Auckland"
       else if (st "4").isPrefixOf natS then st "Wellington"
       else if (st "3").isPrefixOf natS then st "Christchurch" else region1, v)
    else if p.country_code = 55 then
      if (st "11").isPrefixOf natS then (st "Brazil", st "São Paulo", true)
      else if (st "21").isPrefixOf natS then (st "Brazil", st "Rio de Janeiro", v)
      else (st "Brazil", region1, v)
    else if p.country_code = 46 then
      (st "Sweden", if (st "8").isPrefixOf natS then st "Stockholm" else region1, v)
    else if p.country_code = 82 then
      (st "South Korea", if (st "2").isPrefixOf natS then st "Seoul" else region1, v)
    else (country1, region1, v)
  if ntv = 3 ∨ is_toll_free p then
    if p.country_code = 1 then (st "United States", st "Toll-Free", s1.2.2)
    else if p.country_code = 44 then (st "United Kingdom", st "Toll-Free", s1.2.2)
    else s1
  else s1

/-- Assembly of the success record from the overlay result
`cr = (country, region, is_valid)` (lines 602–620): the carrier fetch
result `carr`, the reset of carrier and region for invalid numbers whose
national part is shorter than 6 digits, and the
`country or "Unknown"` / `region or "Unknown"` defaults. -/
def assembleSuccess (p : ParsedNumber) (cr : Str × Str × Bool) (ntv : Nat)
    (carr fmt natS : Str) : PhoneInfoResponse :=
  let carr2 := if ¬ cr.2.2 = true ∧ natS.length < 6 then ([] : Str) else carr
  let r3 := if ¬ cr.2.2 = true ∧ natS.length < 6 then st "Unknown" else cr.2.1
  ⟨p.country_code, p.national_number, orUnknown cr.1, orUnknown r3,
   carr2, natDigits ntv, cr.2.2, fmt⟩

/-- The post-parse part of the pipeline (lines 454–620): the country-code
and national-number-length gates, the (unreachable) emergency branch,
validity, the hard stop for short invalid numbers, number type, the
country/region baseline and overlays, the carrier fetch, the
short-invalid carrier/region reset, and assembly of the success record
(`country or "Unknown"`, `region or "Unknown"`, `str(number_type)`).
This function is invoked exactly on the main path, after a successful
parse, with `phone` being the normalized input. -/
def resolveParsed (o : Oracle) (p : ParsedNumber) (phone : Str) : Except PyExn ApiResult :=
  if p.country_code = 0 then
    .ok (.failure ⟨st "Invalid country code",
      st "The phone number does not have a recognized country code."⟩)
  else if (natDigits p.national_number).length < 4 then
    .ok (.failure ⟨st "Invalid phone number", st "Phone number is too short."⟩)
  else if (natDigits p.national_number).length ≤ 3 ∧
      (natDigits p.national_number = st "911" ∨ natDigits p.national_number = st "999" ∨
       natDigits p.national_number = st "112") then
    .ok (.failure ⟨st "Emergency number", st "This is an emergency service number."⟩)
  else
    match o.is_valid_number p with
    | .error e => .error e
    | .ok v =>
      if ¬ v = true ∧ (natDigits p.national_number).length < 7 then
        .ok (.failure ⟨st "Invalid phone number",
          st "Number is too short to be a real subscriber number."⟩)
      else
        match o.number_type p with
        | .error e => .error e
        | .ok ntv =>
          match lookup_region_description o p with
          | .error e => .error e
          | .ok region0 =>
            match o.carrier_name p with
            | .error e => .error e
            | .ok carr =>
              match o.format_number p with
              | .error e => .error e
              | .ok fmt =>
                .ok (.success (assembleSuccess p
                  (overlayCountryRegion p phone (natDigits p.national_number)
                    (lookupD COUNTRY_NAME_OVERRIDES (lookup_country_name o p.country_code))
                    region0 v ntv)
                  ntv carr fmt (natDigits p.national_number)))

/-- The main path after the region classifier has produced the region
hint `dr1` (lines 338–368 gates, then parse and resolution): the
empty/short gate, the letters gate, the `invalid_patterns` loop on the
stripped input (all three patterns return the same error), the bare
short-number gate, then parse cascade and post-parse resolution. -/
def mainGates (o : Oracle) (phone dr1 : Str) : Except PyExn ApiResult :=
  if phone = [] ∨ phone.length < 3 then
    .ok (.failure ⟨st "Invalid phone number", st "Phone number is too short or empty."⟩)
  else if phone.any Char.isAlpha then
    .ok (.failure ⟨st "Invalid phone number", st "Phone number contains letters."⟩)
  else if (st "++").isPrefixOf (stripWs phone) ∨ stripWs phone = st "1234567890" ∨
      stripWs phone = st "+1234567890" then
    .ok (.failure ⟨st "Invalid phone number",
      st "The number format is invalid or the number does not exist."⟩)
  else if phone.length ≤ 6 ∧ ¬ (st "+").isPrefixOf phone then
    .ok (.failure ⟨st "Invalid phone number", st "Phone number is too short."⟩)
  else
    match mainParse o phone dr1 with
    | .error e => .error e
    | .ok (.inl err) => .ok (.failure err)
    | .ok (.inr p) => resolveParsed o p phone

/-- The main (non-exception-table) path: the caller-supplied default
region is consumed only by the region classifier, whose output feeds the
gates-and-parse stage.  (The classifier runs textually after the gates in
the source, but it is a pure function of the normalized text and the
default, so precomputing its value is observably identical.) -/
def mainPath (o : Oracle) (phone dr : Str) : Except PyExn ApiResult :=
  mainGates o phone (classifyRegion phone dr)

/-- The body of the `try` block of `phone_info` (lines 284–620), applied
to the already-normalized `phone_number` (the FastAPI dependency
normalizes before the handler runs): the `very_short_patterns` loop, the
literal exception-table branch, then the main path. -/
def phone_info_body (o : Oracle) (phone dr : Str) : Except PyExn ApiResult :=
  if veryShortReject phone then
    .ok (.failure ⟨st "Invalid phone number",
      st "Phone number format is invalid or too short."⟩)
  else
    match findTestEntry (removeSpaces phone) with
    | some e => .ok (testBranch o phone dr (removeSpaces e.1) e.2)
    | none => mainPath o phone dr

/-- The full `/phone-info` endpoint (lines 279–631): normalization by the
dependency, the `try` body, and the two `except` clauses converting a
`NumberParseException` or any other `Exception` into an `ErrorResponse`.
The result type still admits `Except.error`, so that the totality of the
handler is a theorem rather than a typing artifact. -/
def phone_info (o : Oracle) (raw dr : Str) : Except PyExn ApiResult :=
  match phone_info_body o (normalize_phone_number raw) dr with
  | .ok r => .ok r
  | .error (.numberParse m) => .ok (.failure ⟨st "Invalid phone number format", m⟩)
  | .error (.other m) => .ok (.failure ⟨st "Server error processing phone number", m⟩)

/-- A concrete instantiation of the external collaborators used by the
concrete evaluations below: `parse` is supplied per scenario, validity
and number type are constant, the region code of every calling code is
`US` with `pycountry` naming it `United States`, the geocoder returns no
description, the carrier is unknown, and formatting yields the fixed
marker string `FMT`. -/
def okOracle (pr : Str → Str → Except PyExn ParsedNumber) (v : Bool) (nt : Nat) : Oracle :=
  ⟨pr, fun _ => .ok v, fun _ => .ok nt, fun _ => .ok (st "FMT"),
   fun _ => st "US", fun _ => some (st "United States"),
   fun _ => .ok [], fun _ => .ok []⟩

/-- Replace only the number-type collaborator of an oracle. -/
def setNt (o : Oracle) (nt : ParsedNumber → Except PyExn Nat) : Oracle :=
  ⟨o.parse, o.is_valid_number, nt, o.format_number,
   o.region_code_for_country_code, o.pycountry_name,
   o.geocoder_description, o.carrier_name⟩

deriving instance DecidableEq for Except

/-- The cleanliness predicate claimed for parser inputs: nothing but
decimal digits after at most one leading `+`. -/
def digitsPlusOnly (l : Str) : Bool :=
  (if (st "+").isPrefixOf l then l.drop 1 else l).all Char.isDigit

/-- A parser oracle that always reports the North American reference
number `+1 415 555 2671`. -/
def trivOracle : Oracle := okOracle (fun _ _ => .ok ⟨1, 4155552671⟩) true 0

/-- Oracle for the `911` evaluation: parsing always yields calling code 1
with national number 911, the case most favourable to the emergency
claim. -/
def oracleC2 : Oracle := okOracle (fun _ _ => .ok ⟨1, 911⟩) true 0

/-- Oracle for the `12345` evaluation: parsing always yields calling
code 1 with national number 2345, reported valid. -/
def oracleC6 : Oracle := okOracle (fun _ _ => .ok ⟨1, 2345⟩) true 0

/-- A parser whose result depends on the region hint (as the external
parser's contract allows for inputs without an explicit `+<code>`):
region `GB` resolves to a national number with a Canadian area code,
anything else to a US one, both under calling code 1. -/
def oracleC5 : Oracle :=
  okOracle (fun _ r => .ok ⟨1, if r = st "GB" then 2045551234 else 4155551234⟩) true 0

/-- Oracle resolving to the Australian toll-free number 1800 123 456. -/
def oracleC8 : Oracle := okOracle (fun _ _ => .ok ⟨61, 1800123456⟩) true 0

/-- Oracle resolving to the US toll-free number 800 555 1234. -/
def oracleC8w : Oracle := okOracle (fun _ _ => .ok ⟨1, 8005551234⟩) true 0

/-- Oracle reporting the São Paulo number 11 1234 5678 as INVALID, to
exhibit the forced-validity overlay. -/
def oracleC7w : Oracle := okOracle (fun _ _ => .ok ⟨55, 1112345678⟩) false 0

/-- A parser that succeeds on every input, in particular on inputs
containing spaces. -/
def oracleC4yes : Oracle := okOracle (fun _ _ => .ok ⟨44, 7700900123⟩) true 0

/-- The same collaborators as `oracleC4yes` except that parsing any
input containing a space raises `NumberParseException`: the two oracles
agree on every space-free string, so any observable difference between
runs certifies that the pipeline handed the parser a string containing
a space. -/
def oracleC4no : Oracle :=
  okOracle
    (fun s _ => if s.contains ' ' then .error (.numberParse (st "NPE"))
                else .ok ⟨44, 7700900123⟩) true 0

/-- C1: for every input string, caller default region, and behavior of
the external collaborators (including any of them raising), the
`/phone-info` pipeline returns a value — a single `ApiResult`, which by
construction of that type is either one success record or one typed
error, never both, never neither — and never propagates an exception:
the result is always `Except.ok`. -/
theorem C1_error_totality (o : Oracle) (raw dr : Str) :
    ∃ r, phone_info o raw dr = Except.ok r := by
  cases h : phone_info_body o (normalize_phone_number raw) dr with
  | ok r => exact ⟨r, by unfold phone_info; rw [h]⟩
  | error e =>
    cases e with
    | numberParse m =>
      exact ⟨.failure ⟨st "Invalid phone number format", m⟩, by unfold phone_info; rw [h]⟩
    | other m =>
      exact ⟨.failure ⟨st "Server error processing phone number", m⟩, by unfold phone_info; rw [h]⟩

/-- C2: evaluation of the pipeline at the failing input `911` (default
region `US`), with a parser that reports national number 911 under
calling code 1 — the case most favourable to the claim.  The pipeline
returns the `"Phone number is too short."` error of the `< 4`-digit
check, not the `EmergencyNumber` error: the emergency branch (lines
469–474) tests `len ≤ 3` after the `len < 4` check has already
returned, so it is unreachable. -/
theorem C2_emergency_check_shadowed :
    phone_info oracleC2 (st "911") (st "US") =
      .ok (.failure ⟨st "Invalid phone number", st "Phone number is too short."⟩) ∧
    phone_info oracleC2 (st "911") (st "US") ≠
      .ok (.failure ⟨st "Emergency number", st "This is an emergency service number."⟩) := by
  decide

/-- C3 counterexample: `normalize` is not idempotent.  For the input
`"(0)0123"` the formatting-character removal exposes a leading `00`
after the `00 → +` rewrite has already run, and the result `"00123"` is
too short for the final `+`-prepend; renormalizing rewrites it to
`"+123"`. -/
theorem C3_counterexample_normalize_not_idempotent :
    normalize_phone_number (st "(0)0123") = st "00123" ∧
    normalize_phone_number (normalize_phone_number (st "(0)0123")) = st "+123" ∧
    normalize_phone_number (normalize_phone_number (st "(0)0123")) ≠
      normalize_phone_number (st "(0)0123") := by
  decide

/-- C4 counterexample: on the literal-exception-table path the string
handed to the external parser is the normalized input itself, which for
`"+44 7700 900123"` still contains spaces and is not digits-plus-`+`.
`oracleC4yes` parses every string (so the parse call in question
succeeds, giving a success record), while `oracleC4no` differs from it
only on strings containing a space — and the two runs produce different
responses, certifying that the successful parse call received a string
containing a space. -/
theorem C4_counterexample_table_path_spaces :
    (normalize_phone_number (st "+44 7700 900123")).contains ' ' = true ∧
    digitsPlusOnly (normalize_phone_number (st "+44 7700 900123")) = false ∧
    phone_info oracleC4yes (st "+44 7700 900123") (st "US") =
      .ok (.success ⟨44, 7700900123, st "United Kingdom", st "United Kingdom Mobile",
        [], st "1", true, st "FMT"⟩) ∧
    phone_info oracleC4no (st "+44 7700 900123") (st "US") ≠
      phone_info oracleC4yes (st "+44 7700 900123") (st "US") := by
  decide

/-- C5 counterexample: the external parser's contract allows the result
of parsing a string without an explicit `+<code>` to depend on the
region hint.  For the input `"#123456"` (which no classifier branch
matches, so the caller default reaches the parser), the runs with
defaults `US`, `AU` and `GB` all resolve to calling code 1, yet the
resolved countries differ (`United States` vs `Canada`), because the
`GB` parse yields a national number with a Canadian area code. -/
theorem C5_counterexample_default_region_leaks :
    phone_info oracleC5 (st "#123456") (st "US") =
      .ok (.success ⟨1, 4155551234, st "United States", st "Unknown", [], st "0", true, st "FMT"⟩) ∧
    phone_info oracleC5 (st "#123456") (st "AU") =
      .ok (.success ⟨1, 4155551234, st "United States", st "Unknown", [], st "0", true, st "FMT"⟩) ∧
    phone_info oracleC5 (st "#123456") (st "GB") =
      .ok (.success ⟨1, 2045551234, st "Canada", st "Unknown", [], st "0", true, st "FMT"⟩) ∧
    st "United States" ≠ st "Canada" := by
  decide

/-- C6 counterexample: the raw input `"12345"` matches the bare
five-digit structural-reject shape, but the checks run on the
normalized text `"+12345"`, which matches none of them — with a parser
that accepts it (calling code 1, national number 2345, valid) the
pipeline returns a success record instead of the structural
`InvalidFormat` rejection the claim requires. -/
theorem C6_counterexample_raw_shape_not_rejected :
    veryShortReject (st "12345") = true ∧
    normalize_phone_number (st "12345") = st "+12345" ∧
    veryShortReject (st "+12345") = false ∧
    phone_info oracleC6 (st "12345") (st "US") =
      .ok (.success ⟨1, 2345, st "United States", st "Unknown", [], st "0", true, st "FMT"⟩) := by
  decide

/-- C8 counterexample: the Australian toll-free number 1800 123 456
(calling code 61, toll-free by the `1800` table entry) resolves with
region `Unknown`, not `Toll-Free`: the toll-free branch only rewrites
the region for calling codes 1 and 44. -/
theorem C8_counterexample_au_tollfree_region :
    is_toll_free ⟨61, 1800123456⟩ = true ∧
    phone_info oracleC8 (st "+611800123456") (st "US") =
      .ok (.success ⟨61, 1800123456, st "Australia", st "Unknown", [], st "0", true, st "FMT"⟩) ∧
    st "Unknown" ≠ st "Toll-Free" := by
  decide

/-- C9 counterexample: an input whose normalized form starts with `++`
is rejected by the `very_short_patterns` loop, whose detail string is
`"Phone number format is invalid or too short."`; it never reaches the
`invalid_patterns` blacklist whose detail the claim asserts (the `^\+\+`
entry there is unreachable). -/
theorem C9_counterexample_doubleplus_detail :
    normalize_phone_number (st "++123") = st "++123" ∧
    phone_info trivOracle (st "++123") (st "US") =
      .ok (.failure ⟨st "Invalid phone number",
        st "Phone number format is invalid or too short."⟩) ∧
    st "Phone number format is invalid or too short." ≠
      st "The number format is invalid or the number does not exist." := by
  decide

/-- C6 amended: the structural-reject patterns are evaluated against the
normalized text (normalization runs in the request dependency, before
the handler body); whenever the normalized input matches one of them,
the pipeline returns the structural `InvalidFormat` error. -/
theorem C6_amended_checks_on_normalized (o : Oracle) (raw dr : Str)
    (h : veryShortReject (normalize_phone_number raw) = true) :
    phone_info o raw dr =
      .ok (.failure ⟨st "Invalid phone number",
        st "Phone number format is invalid or too short."⟩) := by
  unfold phone_info phone_info_body
  rw [if_pos h]

/-- Witness for `C6_amended_checks_on_normalized` at the input
`"abcdefghijk"`, whose normalized form `"+abcdefghijk"` matches the
`\+\d*[a-zA-Z]` pattern. -/
theorem C6_amended_witness :
    veryShortReject (normalize_phone_number (st "abcdefghijk")) = true ∧
    phone_info trivOracle (st "abcdefghijk") (st "US") =
      .ok (.failure ⟨st "Invalid phone number",
        st "Phone number format is invalid or too short."⟩) :=
  ⟨by decide,
   C6_amended_checks_on_normalized trivOracle (st "abcdefghijk") (st "US") (by decide)⟩

/-- C9 amended: an input whose normalized form is exactly `"1234567890"`
or `"+1234567890"` is rejected by the `invalid_patterns` blacklist with
detail `"The number format is invalid or the number does not exist."`
(strings starting `++` never reach that blacklist — see the C9
counterexample). -/
theorem C9_amended_blacklist (o : Oracle) (raw dr : Str)
    (h : normalize_phone_number raw = st "1234567890" ∨
         normalize_phone_number raw = st "+1234567890") :
    phone_info o raw dr =
      .ok (.failure ⟨st "Invalid phone number",
        st "The number format is invalid or the number does not exist."⟩) := by
  unfold phone_info
  rcases h with h | h <;> rw [h] <;> rfl

/-- Witness for `C9_amended_blacklist` at the raw input `"1234567890"`,
whose normalized form is `"+1234567890"`. -/
theorem C9_amended_witness :
    (normalize_phone_number (st "1234567890") = st "1234567890" ∨
     normalize_phone_number (st "1234567890") = st "+1234567890") ∧
    phone_info trivOracle (st "1234567890") (st "US") =
      .ok (.failure ⟨st "Invalid phone number",
        st "The number format is invalid or the number does not exist."⟩) :=
  ⟨by decide,
   C9_amended_blacklist trivOracle (st "1234567890") (st "US") (by decide)⟩

/-- The exception-table branch always returns a success record whose
carrier is empty and whose type is `"1"` exactly when the pinned region
contains `"Mobile"`. -/
theorem testBranch_shape (o : Oracle) (phone dr tn : Str) (d : TestData) :
    ∃ r, testBranch o phone dr tn d = .success r ∧ r.carrier = [] ∧
      r.type = (if containsSub (st "Mobile") d.region then st "1" else st "0") := by
  unfold testBranch
  cases h : (do
      let p ← o.parse phone dr
      let fmt ← o.format_number p
      pure (p, fmt) : Except PyExn (ParsedNumber × Str)) with
  | ok v => obtain ⟨p, fmt⟩ := v; exact ⟨_, rfl, rfl, rfl⟩
  | error e => exact ⟨_, rfl, rfl, rfl⟩

/-- C10: whenever the space-stripped normalized input equals a key of the
literal exception table (and, as holds for every actual table entry, the
normalized input does not match a structural-reject pattern), the
pipeline returns a success record with an empty carrier whose `type`
field is `"1"` exactly when the pinned region contains `"Mobile"`; and
the response is unchanged under arbitrary replacement of the external
number-type collaborator — that service is never consulted on this
path. -/
theorem C10_table_path_carrier_type (o : Oracle)
    (nt : ParsedNumber → Except PyExn Nat) (raw dr k : Str) (d : TestData)
    (hfind : findTestEntry (removeSpaces (normalize_phone_number raw)) = some (k, d))
    (hvs : veryShortReject (normalize_phone_number raw) = false) :
    (∃ r, phone_info o raw dr = .ok (.success r) ∧ r.carrier = [] ∧
       r.type = (if containsSub (st "Mobile") d.region then st "1" else st "0")) ∧
    phone_info (setNt o nt) raw dr = phone_info o raw dr := by
  have h1 : ¬ (veryShortReject (normalize_phone_number raw) = true) := by simp [hvs]
  constructor
  · obtain ⟨r, hr, hc, ht⟩ :=
      testBranch_shape o (normalize_phone_number raw) dr (removeSpaces k) d
    refine ⟨r, ?_, hc, ht⟩
    unfold phone_info phone_info_body
    rw [if_neg h1, hfind]
    show Except.ok (testBranch o (normalize_phone_number raw) dr (removeSpaces k) d) =
      Except.ok (ApiResult.success r)
    rw [hr]
  · unfold phone_info phone_info_body
    rw [if_neg h1, if_neg h1, hfind]
    rfl

/-- Witness for `C10_table_path_carrier_type` at the raw input
`"+447700900123"`, which matches the first table key (the UK mobile
reference number, pinned region `United Kingdom Mobile`, hence type
`"1"`). -/
theorem C10_table_path_witness :
    (∃ r, phone_info trivOracle (st "+447700900123") (st "US") = .ok (.success r) ∧
       r.carrier = [] ∧
       r.type = (if containsSub (st "Mobile")
         (st "United Kingdom Mobile") then st "1" else st "0")) ∧
    phone_info (setNt trivOracle (fun _ => .ok 7)) (st "+447700900123") (st "US") =
      phone_info trivOracle (st "+447700900123") (st "US") :=
  C10_table_path_carrier_type trivOracle (fun _ => .ok 7) (st "+447700900123")
    (st "US") (st "+44 7700 900123")
    ⟨st "United Kingdom", true, st "United Kingdom Mobile"⟩
    (by decide) (by decide)
/-- Inversion of the post-parse resolver: a success record arises only
when every external lookup succeeded, the gates passed (in particular
the number is externally valid or its national part has at least 7
digits, by the hard stop), and the record is the assembly of the
overlay output. -/
theorem resolveParsed_success_inv (o : Oracle) (p : ParsedNumber) (phone : Str)
    (r : PhoneInfoResponse)
    (hs : resolveParsed o p phone = .ok (.success r)) :
    ∃ v ntv region0 carr fmt,
      o.is_valid_number p = .ok v ∧
      o.number_type p = .ok ntv ∧
      lookup_region_description o p = .ok region0 ∧
      o.carrier_name p = .ok carr ∧
      o.format_number p = .ok fmt ∧
      (v = true ∨ 7 ≤ (natDigits p.national_number).length) ∧
      r = assembleSuccess p
            (overlayCountryRegion p phone (natDigits p.national_number)
              (lookupD COUNTRY_NAME_OVERRIDES (lookup_country_name o p.country_code))
              region0 v ntv)
            ntv carr fmt (natDigits p.national_number) := by
  unfold resolveParsed at hs
  by_cases h0 : p.country_code = 0
  · rw [if_pos h0] at hs; exact absurd hs (by simp)
  rw [if_neg h0] at hs
  by_cases h4 : (natDigits p.national_number).length < 4
  · rw [if_pos h4] at hs; exact absurd hs (by simp)
  rw [if_neg h4] at hs
  rw [if_neg (fun h => h4 (Nat.lt_succ_of_le h.1))] at hs
  cases hv : o.is_valid_number p with
  | error e => rw [hv] at hs; exact absurd hs (by simp)
  | ok v =>
    rw [hv] at hs
    dsimp only at hs
    by_cases h7 : ¬ v = true ∧ (natDigits p.national_number).length < 7
    · rw [if_pos h7] at hs; exact absurd hs (by simp)
    rw [if_neg h7] at hs
    cases hnt : o.number_type p with
    | error e => rw [hnt] at hs; exact absurd hs (by simp)
    | ok ntv =>
      rw [hnt] at hs
      dsimp only at hs
      cases hg : lookup_region_description o p with
      | error e => rw [hg] at hs; exact absurd hs (by simp)
      | ok region0 =>
        rw [hg] at hs
        dsimp only at hs
        cases hc : o.carrier_name p with
        | error e => rw [hc] at hs; exact absurd hs (by simp)
        | ok carr =>
          rw [hc] at hs
          dsimp only at hs
          cases hf : o.format_number p with
          | error e => rw [hf] at hs; exact absurd hs (by simp)
          | ok fmt =>
            rw [hf] at hs
            dsimp only at hs
            refine ⟨v, ntv, region0, carr, fmt, rfl, rfl, rfl, rfl, rfl, ?_, ?_⟩
            · cases v with
              | true => exact .inl rfl
              | false =>
                right
                rcases Nat.lt_or_ge (natDigits p.national_number).length 7 with hlt | hge
                · exact absurd ⟨by simp, hlt⟩ h7
                · exact hge
            · have h := hs
              simp only [Except.ok.injEq, ApiResult.success.injEq] at h
              exact h.symm

/-- `TOLL_FREE_PREFIXES` has no entry for calling code 55, so no
Brazilian number is toll-free. -/
theorem is_toll_free_55 {p : ParsedNumber} (h55 : p.country_code = 55) :
    is_toll_free p = false := by
  unfold is_toll_free
  rw [h55]
  rfl

/-- The overlay block for calling code 55: country `Brazil`, region
`São Paulo` with validity forced for national prefix `11`, region
`Rio de Janeiro` without touching validity for prefix `21`, and the
toll-free relabeling never applies. -/
theorem overlay_cc55 {p : ParsedNumber} (phone natS c r0 : Str) (v : Bool) (ntv : Nat)
    (h55 : p.country_code = 55) :
    overlayCountryRegion p phone natS c r0 v ntv =
      (if (st "11").isPrefixOf natS = true then (st "Brazil", st "São Paulo", true)
       else if (st "21").isPrefixOf natS = true then (st "Brazil", st "Rio de Janeiro", v)
       else (st "Brazil", lookupD REGION_MAPPING r0, v)) := by
  unfold overlayCountryRegion
  rw [h55, is_toll_free_55 h55]
  norm_num

/-- C7: on the main path (the post-parse resolver is invoked only
there, never on the literal-exception-table path), a success record for
a number with calling code 55 has region `São Paulo` and `is_valid`
forced to `true` whenever the national number's digits start with `11`
— regardless of the external validator's verdict — and region
`Rio de Janeiro` with `is_valid` equal to the external validator's
verdict whenever they start with `21`. -/
theorem C7_brazil_overlay (o : Oracle) (p : ParsedNumber) (phone : Str)
    (r : PhoneInfoResponse)
    (h55 : p.country_code = 55)
    (hs : resolveParsed o p phone = .ok (.success r)) :
    ((st "11").isPrefixOf (natDigits p.national_number) = true →
       r.region = st "São Paulo" ∧ r.is_valid = true) ∧
    ((st "21").isPrefixOf (natDigits p.national_number) = true →
       r.region = st "Rio de Janeiro" ∧ o.is_valid_number p = .ok r.is_valid) := by
  obtain ⟨v, ntv, region0, carr, fmt, hv, hnt, hg, hc, hf, hlen, hr⟩ :=
    resolveParsed_success_inv o p phone r hs
  constructor
  · intro h11
    subst hr
    rw [overlay_cc55 _ _ _ _ _ _ h55, if_pos h11]
    exact ⟨rfl, rfl⟩
  · intro h21
    have h11n : (st "11").isPrefixOf (natDigits p.national_number) = false := by
      obtain ⟨t, ht⟩ := List.isPrefixOf_iff_prefix.mp h21
      rw [← ht]
      rfl
    have hreset : ¬ (¬ v = true ∧ (natDigits p.national_number).length < 6) := by
      rcases hlen with h | h
      · rw [h]; simp
      · intro hcon; omega
    subst hr
    rw [overlay_cc55 _ _ _ _ _ _ h55, h11n, if_neg (by simp), if_pos h21]
    refine ⟨?_, ?_⟩
    · simp only [assembleSuccess]
      rw [if_neg hreset]
      rfl
    · exact hv

/-- The overlay block for a toll-free number with calling code 1:
country forced to `United States`, region to `Toll-Free`, validity
untouched. -/
theorem overlay_tollfree_cc1 {p : ParsedNumber} (phone natS c r0 : Str) (v : Bool) (ntv : Nat)
    (h1 : p.country_code = 1) (htf : ntv = 3 ∨ is_toll_free p = true) :
    overlayCountryRegion p phone natS c r0 v ntv = (st "United States", st "Toll-Free", v) := by
  unfold overlayCountryRegion
  rw [h1]
  simp [htf]

/-- The overlay block for a toll-free number with calling code 44:
country forced to `United Kingdom`, region to `Toll-Free`; validity is
the UK-branch value (forced to `true` only by the UK reference-number
substring check). -/
theorem overlay_tollfree_cc44 {p : ParsedNumber} (phone natS c r0 : Str) (v : Bool) (ntv : Nat)
    (h44 : p.country_code = 44) (htf : ntv = 3 ∨ is_toll_free p = true) :
    overlayCountryRegion p phone natS c r0 v ntv =
      (st "United Kingdom", st "Toll-Free",
       if containsSub (st "+44 7700 900123") phone = true ∨
          containsSub (st "+447700900123") (removeSpaces phone) = true then true else v) := by
  unfold overlayCountryRegion
  rw [h44]
  simp [htf]
  split
  · rename_i h
    rcases h with h | h <;> simp [h]
  · rename_i h
    push_neg at h
    simp only [Bool.not_eq_true] at h
    simp [h.1, h.2]

/-- C8 amended: for a toll-free number (external type 3 or a matching
`TOLL_FREE_PREFIXES` prefix), the success record has region `Toll-Free`
and the canonical country name only for calling codes 1 and 44; for
calling code 61 (and all others) the region is NOT rewritten — see the
C8 counterexample. -/
theorem C8_amended_tollfree_relabel (o : Oracle) (p : ParsedNumber) (phone : Str)
    (r : PhoneInfoResponse)
    (htf : is_toll_free p = true ∨ o.number_type p = .ok 3)
    (hs : resolveParsed o p phone = .ok (.success r)) :
    (p.country_code = 1 → r.region = st "Toll-Free" ∧ r.country = st "United States") ∧
    (p.country_code = 44 → r.region = st "Toll-Free" ∧ r.country = st "United Kingdom") := by
  obtain ⟨v, ntv, region0, carr, fmt, hv, hnt, hg, hc, hf, hlen, hr⟩ :=
    resolveParsed_success_inv o p phone r hs
  have htf2 : ntv = 3 ∨ is_toll_free p = true := by
    rcases htf with h | h
    · exact .inr h
    · left
      have h2 := hnt.symm.trans h
      exact (Except.ok.injEq _ _).mp h2
  have hreset : ¬ (¬ v = true ∧ (natDigits p.national_number).length < 6) := by
    rcases hlen with h | h
    · rw [h]; simp
    · intro hcon; omega
  constructor
  · intro h1
    subst hr
    rw [overlay_tollfree_cc1 _ _ _ _ _ _ h1 htf2]
    refine ⟨?_, rfl⟩
    simp only [assembleSuccess]
    rw [if_neg hreset]
    rfl
  · intro h44
    subst hr
    rw [overlay_tollfree_cc44 _ _ _ _ _ _ h44 htf2]
    by_cases hck : containsSub (st "+44 7700 900123") phone = true ∨
        containsSub (st "+447700900123") (removeSpaces phone) = true
    · rw [if_pos hck]
      refine ⟨?_, rfl⟩
      simp only [assembleSuccess]
      rw [if_neg (by simp)]
      rfl
    · rw [if_neg hck]
      refine ⟨?_, rfl⟩
      simp only [assembleSuccess]
      rw [if_neg hreset]
      rfl

/-- Witness for `C7_brazil_overlay`: the parsed number 55/1112345678
with an external validator that reports it INVALID still resolves to
region `São Paulo` with `is_valid = true`. -/
theorem C7_brazil_overlay_witness :
    (⟨55, 1112345678⟩ : ParsedNumber).country_code = 55 ∧
    resolveParsed oracleC7w ⟨55, 1112345678⟩ [] =
      .ok (.success ⟨55, 1112345678, st "Brazil", st "São Paulo", [], st "0", true, st "FMT"⟩) ∧
    (((st "11").isPrefixOf (natDigits (⟨55, 1112345678⟩ : ParsedNumber).national_number) = true →
        (⟨55, 1112345678, st "Brazil", st "São Paulo", [], st "0", true,
          st "FMT"⟩ : PhoneInfoResponse).region = st "São Paulo" ∧
        (⟨55, 1112345678, st "Brazil", st "São Paulo", [], st "0", true,
          st "FMT"⟩ : PhoneInfoResponse).is_valid = true) ∧
     ((st "21").isPrefixOf (natDigits (⟨55, 1112345678⟩ : ParsedNumber).national_number) = true →
        (⟨55, 1112345678, st "Brazil", st "São Paulo", [], st "0", true,
          st "FMT"⟩ : PhoneInfoResponse).region = st "Rio de Janeiro" ∧
        oracleC7w.is_valid_number ⟨55, 1112345678⟩ =
          .ok (⟨55, 1112345678, st "Brazil", st "São Paulo", [], st "0", true,
            st "FMT"⟩ : PhoneInfoResponse).is_valid)) :=
  ⟨rfl, by decide,
   C7_brazil_overlay oracleC7w ⟨55, 1112345678⟩ [] _ rfl (by decide)⟩

/-- Witness for `C8_amended_tollfree_relabel`: the US toll-free number
1/8005551234 resolves with region `Toll-Free` and country
`United States`. -/
theorem C8_amended_witness :
    (is_toll_free ⟨1, 8005551234⟩ = true ∨ oracleC8w.number_type ⟨1, 8005551234⟩ = .ok 3) ∧
    resolveParsed oracleC8w ⟨1, 8005551234⟩ [] =
      .ok (.success ⟨1, 8005551234, st "United States", st "Toll-Free", [], st "0", true, st "FMT"⟩) ∧
    (((⟨1, 8005551234⟩ : ParsedNumber).country_code = 1 →
        (⟨1, 8005551234, st "United States", st "Toll-Free", [], st "0", true,
          st "FMT"⟩ : PhoneInfoResponse).region = st "Toll-Free" ∧
        (⟨1, 8005551234, st "United States", st "Toll-Free", [], st "0", true,
          st "FMT"⟩ : PhoneInfoResponse).country = st "United States") ∧
     ((⟨1, 8005551234⟩ : ParsedNumber).country_code = 44 →
        (⟨1, 8005551234, st "United States", st "Toll-Free", [], st "0", true,
          st "FMT"⟩ : PhoneInfoResponse).region = st "Toll-Free" ∧
        (⟨1, 8005551234, st "United States", st "Toll-Free", [], st "0", true,
          st "FMT"⟩ : PhoneInfoResponse).country = st "United Kingdom")) :=
  ⟨by decide, by decide,
   C8_amended_tollfree_relabel oracleC8w ⟨1, 8005551234⟩ [] _ (by decide) (by decide)⟩
/-- A normalized input starting with `+1` or `1` never matches the
literal exception table: every key's space-stripped form starts with
`+` followed by a digit other than 1. -/
theorem findTest_none_cc1 (y : Str)
    (h1 : (st "+1").isPrefixOf y = true ∨ (st "1").isPrefixOf y = true) :
    findTestEntry (removeSpaces y) = none := by
  have hkeys : TEST_NUMBERS.all
      (fun e => ¬ (removeSpaces e.1).take 2 = ['+', '1'] ∧
                ¬ (removeSpaces e.1).take 1 = ['1']) = true := by decide
  rw [List.all_eq_true] at hkeys
  apply List.find?_eq_none.mpr
  intro x hx
  have hk := hkeys x hx
  simp only [decide_eq_true_eq] at hk
  rcases h1 with h | h
  · obtain ⟨t, rfl⟩ := List.isPrefixOf_iff_prefix.mp h
    intro heq
    simp only [decide_eq_true_eq] at heq
    apply hk.1
    rw [heq]
    rfl
  · obtain ⟨t, rfl⟩ := List.isPrefixOf_iff_prefix.mp h
    intro heq
    simp only [decide_eq_true_eq] at heq
    apply hk.2
    rw [heq]
    rfl

/-- When the normalized input starts with `+1` or `1` and is at least
11 characters long, the region classifier's output does not depend on
the caller-supplied default region (the branch taken computes `US` or
`CA` from the text alone). -/
theorem classifyRegion_cc1 (y dr dr2 : Str)
    (h1 : (st "+1").isPrefixOf y = true ∨ (st "1").isPrefixOf y = true)
    (h2 : 11 ≤ y.length) :
    classifyRegion y dr = classifyRegion y dr2 := by
  rcases h1 with h | h
  · obtain ⟨t, rfl⟩ := List.isPrefixOf_iff_prefix.mp h
    unfold classifyRegion
    conv_lhs => rw [if_neg (fun hc => hc.elim (fun hb => Bool.false_ne_true hb)
          (fun hb => Bool.false_ne_true hb)), if_pos ⟨Or.inl h, h2⟩]
    conv_rhs => rw [if_neg (fun hc => hc.elim (fun hb => Bool.false_ne_true hb)
          (fun hb => Bool.false_ne_true hb)), if_pos ⟨Or.inl h, h2⟩]
  · obtain ⟨t, rfl⟩ := List.isPrefixOf_iff_prefix.mp h
    unfold classifyRegion
    conv_lhs => rw [if_neg (fun hc => hc.elim (fun hb => Bool.false_ne_true hb)
          (fun hb => Bool.false_ne_true hb)), if_pos ⟨Or.inr h, h2⟩]
    conv_rhs => rw [if_neg (fun hc => hc.elim (fun hb => Bool.false_ne_true hb)
          (fun hb => Bool.false_ne_true hb)), if_pos ⟨Or.inr h, h2⟩]

/-- C5 amended: for every input whose normalized form starts with `+1`
or `1` and has length at least 11 (the trigger of the calling-code-1
classifier branch), the entire response — in particular the resolved
country — is independent of the caller-supplied default region.  For
inputs that do not trigger the classifier, stability can fail: see the
C5 counterexample. -/
theorem C5_amended_plus1_region_stable (o : Oracle) (raw dr dr2 : Str)
    (h1 : (st "+1").isPrefixOf (normalize_phone_number raw) = true ∨
          (st "1").isPrefixOf (normalize_phone_number raw) = true)
    (h2 : 11 ≤ (normalize_phone_number raw).length) :
    phone_info o raw dr = phone_info o raw dr2 := by
  unfold phone_info phone_info_body mainPath
  rw [findTest_none_cc1 _ h1, classifyRegion_cc1 _ dr dr2 h1 h2]

/-- Witness for `C5_amended_plus1_region_stable` at the input
`"+14155552671"` with defaults `US` and `GB`. -/
theorem C5_amended_witness :
    ((st "+1").isPrefixOf (normalize_phone_number (st "+14155552671")) = true ∨
     (st "1").isPrefixOf (normalize_phone_number (st "+14155552671")) = true) ∧
    11 ≤ (normalize_phone_number (st "+14155552671")).length ∧
    phone_info trivOracle (st "+14155552671") (st "US") =
      phone_info trivOracle (st "+14155552671") (st "GB") :=
  ⟨Or.inl (by decide), by decide,
   C5_amended_plus1_region_stable trivOracle (st "+14155552671") (st "US") (st "GB")
     (Or.inl (by decide)) (by decide)⟩
/-- ASCII case folding cannot create a letter out of a non-letter. -/
theorem isAlpha_of_toLower (c : Char) (h : (Char.toLower c).isAlpha = true) :
    c.isAlpha = true := by
  by_cases hc : c.toNat ≥ 65 ∧ c.toNat ≤ 90
  · simp only [Char.isAlpha, Char.isUpper, Bool.or_eq_true, Bool.and_eq_true,
      decide_eq_true_eq]
    left
    exact hc
  · unfold Char.toLower at h
    rw [if_neg hc] at h
    exact h

/-- URL decoding is the identity on percent-free strings (any fuel). -/
theorem unquoteGo_eq_self : ∀ (n : Nat) (l : Str), '%' ∉ l → unquoteGo n l = l := by
  intro n
  induction n with
  | zero => intro l _; rfl
  | succ n ih =>
    intro l hl
    cases l with
    | nil => rfl
    | cons c rest =>
      have hc : ¬ c = '%' := fun h => hl (by rw [h]; exact List.mem_cons_self _ _)
      simp only [unquoteGo]
      rw [if_neg hc, ih rest (fun h => hl (List.mem_cons_of_mem _ h))]

/-- URL decoding is the identity on percent-free strings. -/
theorem unquote_eq_self (l : Str) (h : '%' ∉ l) : unquote l = l :=
  unquoteGo_eq_self l.length l h

/-- Whitespace collapsing is the identity on whitespace-free strings. -/
theorem collapseWsAux_eq_self (b : Bool) :
    ∀ l : Str, (∀ c ∈ l, pySpace c = false) → collapseWsAux b l = l := by
  intro l
  induction l generalizing b with
  | nil => intro _; rfl
  | cons c rest ih =>
    intro h
    have hc : ¬ pySpace c = true := by
      rw [h c (List.mem_cons_self _ _)]; simp
    simp only [collapseWsAux]
    rw [if_neg hc, ih false (fun x hx => h x (List.mem_cons_of_mem _ hx))]

/-- Whitespace collapsing is the identity on whitespace-free strings. -/
theorem collapseWs_eq_self (l : Str) (h : ∀ c ∈ l, pySpace c = false) :
    collapseWs l = l :=
  collapseWsAux_eq_self false l h

/-- `dropWhile` is the identity when no character satisfies the
predicate. -/
theorem dropWhile_eq_self_of_all (p : Char → Bool) (l : Str)
    (h : ∀ c ∈ l, p c = false) : l.dropWhile p = l := by
  cases l with
  | nil => rfl
  | cons c rest =>
    rw [List.dropWhile_cons, if_neg (by rw [h c (List.mem_cons_self _ _)]; simp)]

/-- Stripping is the identity on whitespace-free strings. -/
theorem stripWs_eq_self (l : Str) (h : ∀ c ∈ l, pySpace c = false) :
    stripWs l = l := by
  unfold stripWs
  rw [dropWhile_eq_self_of_all _ _ h,
      dropWhile_eq_self_of_all _ _ (fun c hc => h c (List.mem_reverse.mp hc)),
      List.reverse_reverse]

/-- The trunk-marker rewrite is the identity on strings without `(`
(any fuel): its pattern requires a literal `(0)`. -/
theorem trunkGo_eq_self : ∀ (n : Nat) (l : Str), '(' ∉ l → trunkGo n l = l := by
  intro n
  induction n with
  | zero => intro l _; rfl
  | succ n ih =>
    intro l hl
    cases l with
    | nil => rfl
    | cons c rest =>
      have hrest : '(' ∉ rest := fun h => hl (List.mem_cons_of_mem _ h)
      simp only [trunkGo]
      by_cases hp : c = '+'
      · rw [if_pos hp]
        rw [if_neg ?hno]
        case hno =>
          rintro ⟨-, htake⟩
          apply hrest
          apply (List.dropWhile_sublist Char.isDigit).subset
          apply List.take_subset 3
          rw [htake]
          exact List.mem_cons_self _ _
        rw [ih rest hrest, hp]
      · rw [if_neg hp, ih rest hrest]

/-- The trunk-marker rewrite is the identity on strings without `(`. -/
theorem trunkSub_eq_self (l : Str) (h : '(' ∉ l) : trunkSub l = l :=
  trunkGo_eq_self l.length l h

/-- A substring occurrence puts every pattern character in the text. -/
theorem containsSub_subset (pat : Str) :
    ∀ l : Str, containsSub pat l = true → pat ⊆ l := by
  intro l
  induction l with
  | nil =>
    intro h
    cases pat with
    | nil => exact fun x hx => absurd hx (List.not_mem_nil x)
    | cons a as => exact absurd h (by simp [containsSub, List.isPrefixOf])
  | cons c rest ih =>
    intro h
    simp only [containsSub, Bool.or_eq_true] at h
    rcases h with h | h
    · exact (List.isPrefixOf_iff_prefix.mp h).subset
    · exact fun x hx => List.mem_cons_of_mem _ (ih h hx)

/-- A pattern containing the letter `e` cannot occur in the
lower-casing of a letter-free string. -/
theorem containsSub_lower_false (pat y : Str) (he : 'e' ∈ pat)
    (h : ∀ c ∈ y, c.isAlpha = false) : containsSub pat (lowerStr y) = false := by
  by_contra hc
  rw [Bool.not_eq_false] at hc
  have hmem : 'e' ∈ lowerStr y := containsSub_subset pat (lowerStr y) hc he
  obtain ⟨c, hcy, hlc⟩ := List.mem_map.mp hmem
  have : c.isAlpha = true := isAlpha_of_toLower c (by rw [hlc]; decide)
  rw [h c hcy] at this
  exact Bool.false_ne_true this

/-- The last three normalization steps (formatting-character removal,
trunk-marker rewrite, `+`-prepend) produce a string free of formatting
characters, whatever precedes them. -/
theorem noFormat_final (c2 : Str) :
    ∀ c ∈ (if ¬ (st "+").isPrefixOf (trunkSub (c2.filter (fun c => ¬ isFormatChar c))) = true ∧
             7 < (trunkSub (c2.filter (fun c => ¬ isFormatChar c))).length
           then '+' :: trunkSub (c2.filter (fun c => ¬ isFormatChar c))
           else trunkSub (c2.filter (fun c => ¬ isFormatChar c))),
      isFormatChar c = false := by
  have hparen : '(' ∉ c2.filter (fun c => ¬ isFormatChar c) := by
    intro hm
    have h2 := List.of_mem_filter hm
    simp [isFormatChar] at h2
  have hfil : ∀ c ∈ c2.filter (fun c => ¬ isFormatChar c), isFormatChar c = false := by
    intro c hc
    have h2 := List.of_mem_filter hc
    simpa using h2
  rw [trunkSub_eq_self _ hparen]
  intro c hc
  split at hc
  · rcases List.mem_cons.mp hc with rfl | hc2
    · decide
    · exact hfil c hc2
  · exact hfil c hc

/-- Off the literal-exception-table short-circuit, the normalizer's
output contains no formatting or whitespace characters. -/
theorem normalize_noFormat (raw : Str) (h : testCond (unquote raw) = false) :
    ∀ c ∈ normalize_phone_number raw, isFormatChar c = false := by
  unfold normalize_phone_number
  rw [if_neg (by rw [h]; simp)]
  exact noFormat_final _

/-- Whitespace characters are formatting characters. -/
theorem pySpace_false_of_noFormat (c : Char) (h : isFormatChar c = false) :
    pySpace c = false := by
  cases hsp : pySpace c
  · rfl
  · exact absurd (by simp [isFormatChar, hsp] : isFormatChar c = true)
      (by rw [h]; exact Bool.false_ne_true)

/-- The normalizer fixes every string that starts with `+` and
contains no formatting characters, no letters and no percent signs:
each cleanup step is the identity on such a string. -/
theorem normalize_fixed (y : Str)
    (hplus : (st "+").isPrefixOf y = true)
    (hnf : ∀ c ∈ y, isFormatChar c = false)
    (halpha : ∀ c ∈ y, c.isAlpha = false)
    (hpct : '%' ∉ y) :
    normalize_phone_number y = y := by
  obtain ⟨t, rfl⟩ := List.isPrefixOf_iff_prefix.mp hplus
  have hws : ∀ c ∈ (st "+" ++ t), pySpace c = false :=
    fun c hc => pySpace_false_of_noFormat c (hnf c hc)
  have hparen : '(' ∉ (st "+" ++ t) := by
    intro hm
    exact absurd (hnf '(' hm) (by decide)
  unfold normalize_phone_number
  rw [unquote_eq_self _ hpct]
  by_cases hc : testCond (st "+" ++ t) = true
  · rw [if_pos hc]
  · rw [if_neg hc]
    have he1 : containsSub (st " ext ") (lowerStr (st "+" ++ t)) = false :=
      containsSub_lower_false _ _ (by decide) halpha
    have he2 : containsSub (st "ext:") (lowerStr (st "+" ++ t)) = false :=
      containsSub_lower_false _ _ (by decide) halpha
    have he3 : containsSub (st "extension") (lowerStr (st "+" ++ t)) = false :=
      containsSub_lower_false _ _ (by decide) halpha
    have h00 : (st "00").isPrefixOf (st "+" ++ t) = false := rfl
    have hp : (st "+").isPrefixOf (st "+" ++ t) = true :=
      List.isPrefixOf_iff_prefix.mpr (List.prefix_append _ _)
    have hfil : (st "+" ++ t).filter (fun c => ¬ isFormatChar c) = st "+" ++ t :=
      List.filter_eq_self.mpr (fun c hc2 => by rw [hnf c hc2]; decide)
    simp only [he1, he2, he3, Bool.false_eq_true, if_false,
      stripWs_eq_self _ hws, collapseWs_eq_self _ hws, h00, hp, not_true,
      false_and, hfil, trunkSub_eq_self _ hparen]

/-- C4 amended: off the literal-exception-table path, the normalized
string — which is exactly what the main path hands to the external
parser — contains no whitespace, parentheses, hyphens, dots, brackets
or slashes.  (It need not be digits-plus-`+`: characters such as `%`,
`#` or an interior `+` survive, and on the table path spaces survive —
see the C4 counterexample.) -/
theorem C4_amended_no_format_chars (raw : Str)
    (h : testCond (unquote raw) = false) :
    (normalize_phone_number raw).all (fun c => ¬ isFormatChar c) = true := by
  rw [List.all_eq_true]
  intro c hc
  rw [decide_eq_true_eq, normalize_noFormat raw h c hc]
  exact Bool.false_ne_true

/-- Witness for `C4_amended_no_format_chars` at the input
`"(415) 555-2671"`. -/
theorem C4_amended_witness :
    testCond (unquote (st "(415) 555-2671")) = false ∧
    (normalize_phone_number (st "(415) 555-2671")).all (fun c => ¬ isFormatChar c) = true :=
  ⟨by decide, C4_amended_no_format_chars _ (by decide)⟩

/-- C3 amended: the normalizer is idempotent on every input whose
normalized form starts with `+` and contains no ASCII letter and no
percent sign.  (Unconditional idempotence fails: see the C3
counterexample `"(0)0123"`.) -/
theorem C3_amended_idempotent_on_clean (raw : Str)
    (hplus : (st "+").isPrefixOf (normalize_phone_number raw) = true)
    (halpha : ∀ c ∈ normalize_phone_number raw, c.isAlpha = false)
    (hpct : '%' ∉ normalize_phone_number raw) :
    normalize_phone_number (normalize_phone_number raw) = normalize_phone_number raw := by
  by_cases hB : testCond (unquote raw) = true
  · have hyA : normalize_phone_number raw = unquote raw := by
      unfold normalize_phone_number; rw [if_pos hB]
    have hpct2 : '%' ∉ unquote raw := hyA ▸ hpct
    calc normalize_phone_number (normalize_phone_number raw)
        = normalize_phone_number (unquote raw) := by rw [hyA]
      _ = unquote raw := by
          unfold normalize_phone_number
          rw [unquote_eq_self _ hpct2, if_pos hB]
      _ = normalize_phone_number raw := hyA.symm
  · exact normalize_fixed _ hplus
      (normalize_noFormat raw (Bool.not_eq_true _ ▸ hB)) halpha hpct

/-- Witness for `C3_amended_idempotent_on_clean` at the input
`"+14155552671"`. -/
theorem C3_amended_witness :
    (st "+").isPrefixOf (normalize_phone_number (st "+14155552671")) = true ∧
    (∀ c ∈ normalize_phone_number (st "+14155552671"), c.isAlpha = false) ∧
    '%' ∉ normalize_phone_number (st "+14155552671") ∧
    normalize_phone_number (normalize_phone_number (st "+14155552671")) =
      normalize_phone_number (st "+14155552671") :=
  ⟨by decide, by decide, by decide,
   C3_amended_idempotent_on_clean (st "+14155552671") (by decide) (by decide) (by decide)⟩
